import Mathlib

/-!
Shallow embedding of the authentication session state machine of the
ticketing-frontend repository (the email/password + OTP auth context).

The embedding models, faithfully to the source:
  * the four AsyncStorage keys and the durable store as a record of four
    optional string values;
  * the in-memory session held in React state (user, accessToken,
    isLoading, isRestoringAuth, error, pendingEmail, isRegistrationFlow);
  * each operation (login, register, verifyOtp, verifyEmail, startOtpFlow,
    clearOtpFlow, getProfile, signOut, fetchWithAuth, restoreAuthState) as a
    function from the current world (memory plus store) and the outcome of
    its network call to the new world, an ordered list of observable
    effects, and the value returned or the message of the error thrown;
  * JavaScript truthiness checks on nullable strings, the substring-based
    network-error heuristic, and the best-effort persistence helper.

Storage writes can fail: each write is given an `Option String` fault
parameter, `none` meaning the write succeeds and `some msg` meaning the
underlying medium rejects with the message `msg`.  A failed write leaves
the store unchanged for its key.
-/

/-- Storage key `auth_pendingEmail`. -/
def KEY_PENDING_EMAIL : String := "auth_pendingEmail"

/-- Storage key `auth_isRegistrationFlow`. -/
def KEY_IS_REGISTRATION_FLOW : String := "auth_isRegistrationFlow"

/-- Storage key `auth_accessToken`. -/
def KEY_ACCESS_TOKEN : String := "auth_accessToken"

/-- Storage key `auth_user`. -/
def KEY_USER : String := "auth_user"

/-- The user profile shape (`AuthUser` in the source). -/
structure AuthUser where
  user_id : String
  email : String
  name : Option String
  role : String
deriving DecidableEq, Repr

/-- A session error (`AppAuthError` in the source): kind tag plus message. -/
structure AppAuthError where
  type : String
  message : String
deriving DecidableEq, Repr

/-- JavaScript truthiness of a nullable string: `null` and `""` are falsy. -/
def jsTruthy : Option String → Bool
  | none => false
  | some s => s ≠ ""

/-- Does `p` occur as a contiguous run inside `l`? -/
def listInfix (p : List Char) : List Char → Bool
  | [] => p.isEmpty
  | c :: cs => p.isPrefixOf (c :: cs) || listInfix p cs

/-- JavaScript `a.includes(b)` on strings: substring containment. -/
def jsIncludes (s pat : String) : Bool :=
  listInfix pat.toList s.toList

/-- JavaScript `a || b` on nullable strings (empty string is falsy). -/
def jsOrS (a b : Option String) : Option String :=
  if jsTruthy a then a else b

/-- `JSON.stringify` on a boolean. -/
def jsonStringifyBool (b : Bool) : String :=
  if b then "true" else "false"

/-- `JSON.parse` of a boolean blob: accepts the two strings produced by
`jsonStringifyBool`; everything else throws, modelled as `none`. -/
def jsonParseBool (s : String) : Option Bool :=
  if s = "true" then some true
  else if s = "false" then some false
  else none

/-- `JSON.stringify` on an `AuthUser` (field order as declared; an absent
optional `name` is omitted, as `JSON.stringify` omits `undefined`).  Field
values are assumed not to contain quote characters. -/
def jsonStringifyUser (u : AuthUser) : String :=
  match u.name with
  | some n =>
      "\x7b\"user_id\":\"" ++ u.user_id ++ "\",\"email\":\"" ++ u.email ++
        "\",\"name\":\"" ++ n ++ "\",\"role\":\"" ++ u.role ++ "\"\x7d"
  | none =>
      "\x7b\"user_id\":\"" ++ u.user_id ++ "\",\"email\":\"" ++ u.email ++
        "\",\"role\":\"" ++ u.role ++ "\"\x7d"

/-- Drop a literal prefix from a string, or fail. -/
def dropPrefixStr (p s : String) : Option String :=
  if p.isPrefixOf s then some (s.drop p.length) else none

/-- Split a string at its first double quote: the part before it and the
part after it. -/
def breakQuote (s : String) : Option (String × String) :=
  let pos := s.posOf '\"'
  if pos = s.endPos then none
  else some (s.extract 0 pos, s.extract (s.next pos) s.endPos)

/-- Modelled `JSON.parse` for persisted user blobs: accepts exactly the
strings produced by `jsonStringifyUser` (the only writer of the user key);
any other string throws, modelled as `none`. -/
def jsonParseUser (s : String) : Option AuthUser := do
  let s1 ← dropPrefixStr "\x7b\"user_id\":\"" s
  let (uid, s2) ← breakQuote s1
  let s3 ← dropPrefixStr ",\"email\":\"" s2
  let (em, s4) ← breakQuote s3
  match dropPrefixStr ",\"name\":\"" s4 with
  | some s5 => do
      let (nm, s6) ← breakQuote s5
      let s7 ← dropPrefixStr ",\"role\":\"" s6
      let (r, s8) ← breakQuote s7
      if s8 = "\x7d" then some ⟨uid, em, some nm, r⟩ else none
  | none => do
      let s5 ← dropPrefixStr ",\"role\":\"" s4
      let (r, s6) ← breakQuote s5
      if s6 = "\x7d" then some ⟨uid, em, none, r⟩ else none

/-- The durable session store: the four AsyncStorage keys, each holding an
optional string value. -/
@[ext] structure Storage where
  pendingEmail : Option String
  isRegistrationFlow : Option String
  accessToken : Option String
  user : Option String
deriving DecidableEq, Repr

/-- The empty store. -/
def Storage.empty : Storage := ⟨none, none, none, none⟩

/-- The in-memory session (the React state of the provider). -/
@[ext] structure Session where
  user : Option AuthUser
  accessToken : Option String
  isLoading : Bool
  isRestoringAuth : Bool
  error : Option AppAuthError
  pendingEmail : Option String
  isRegistrationFlow : Bool
deriving DecidableEq, Repr

/-- The initial session at process start. -/
def initialSession : Session :=
  { user := none, accessToken := none, isLoading := false,
    isRestoringAuth := true, error := none, pendingEmail := none,
    isRegistrationFlow := false }

/-- Memory plus durable store. -/
@[ext] structure World where
  mem : Session
  store : Storage
deriving DecidableEq, Repr

/-- Observable effects of an operation, in order of occurrence. -/
inductive Ev where
  | setUser (u : Option AuthUser)
  | setToken (t : Option String)
  | setLoading (b : Bool)
  | setErr (e : Option AppAuthError)
  | setPending (e : Option String)
  | setRegFlow (b : Bool)
  | storeSet (key value : String)
  | storeRemove (key : String)
  | net (endpoint : String)
deriving DecidableEq, Repr

/-- Effect `a` occurs strictly before effect `b` in the trace `l`. -/
def evBefore (a b : Ev) (l : List Ev) : Prop :=
  ∃ i j, i < j ∧ l.get? i = some a ∧ l.get? j = some b

/-- `saveOtpState(email, isRegistration)`: writes or removes the two
pending keys together; a failure of either write is caught and swallowed
(best-effort persistence), so the helper never throws and never touches
the in-memory session. -/
def saveOtpState (w : World) (email : Option String) (isRegistration : Bool)
    (f1 f2 : Option String) : World × List Ev :=
  if jsTruthy email then
    let e := email.getD ""
    let st1 := if f1.isSome then w.store else { w.store with pendingEmail := some e }
    let st2 := if f2.isSome then st1 else
      { st1 with isRegistrationFlow := some (jsonStringifyBool isRegistration) }
    ({ w with store := st2 },
      (if f1.isSome then [] else [Ev.storeSet KEY_PENDING_EMAIL e]) ++
        (if f2.isSome then [] else
          [Ev.storeSet KEY_IS_REGISTRATION_FLOW (jsonStringifyBool isRegistration)]))
  else
    let st1 := if f1.isSome then w.store else { w.store with pendingEmail := none }
    let st2 := if f2.isSome then st1 else { st1 with isRegistrationFlow := none }
    ({ w with store := st2 },
      (if f1.isSome then [] else [Ev.storeRemove KEY_PENDING_EMAIL]) ++
        (if f2.isSome then [] else [Ev.storeRemove KEY_IS_REGISTRATION_FLOW]))

/-- `clearOtpFlow()`: clears `pendingEmail` and `isRegistrationFlow` in
memory, then removes both keys from the store via `saveOtpState`. -/
def clearOtpFlow (w : World) (f1 f2 : Option String) : World × List Ev :=
  let w1 : World :=
    { w with mem := { w.mem with pendingEmail := none, isRegistrationFlow := false } }
  let (w2, ev) := saveOtpState w1 none false f1 f2
  (w2, [Ev.setPending none, Ev.setRegFlow false] ++ ev)

/-- `startOtpFlow(email, isRegistration)`: sets the pending pair in memory,
then writes it through to the store via `saveOtpState`. -/
def startOtpFlow (w : World) (email : String) (isRegistration : Bool)
    (f1 f2 : Option String) : World × List Ev :=
  let w1 : World :=
    { w with mem :=
        { w.mem with pendingEmail := some email, isRegistrationFlow := isRegistration } }
  let (w2, ev) := saveOtpState w1 (some email) isRegistration f1 f2
  (w2, [Ev.setPending (some email), Ev.setRegFlow isRegistration] ++ ev)

/-- `restoreAuthState()`: runs once at mount; reads the four keys and
restores each field.  The token is restored when truthy; the user blob is
parsed in an isolated try/catch; the pending email is restored when truthy;
the flag is restored when the key is present (not `null`) and parses.
Finally `isRestoringAuth` is set to false. -/
def restoreAuthState (store : Storage) (s : Session) : Session :=
  let s1 := if jsTruthy store.accessToken then { s with accessToken := store.accessToken } else s
  let s2 := if jsTruthy store.user then
      match jsonParseUser (store.user.getD "") with
      | some u => { s1 with user := some u }
      | none => s1
    else s1
  let s3 := if jsTruthy store.pendingEmail then { s2 with pendingEmail := store.pendingEmail } else s2
  let s4 := match store.isRegistrationFlow with
    | some raw =>
      match jsonParseBool raw with
      | some b => { s3 with isRegistrationFlow := b }
      | none => s3
    | none => s3
  { s4 with isRestoringAuth := false }

/-- Outcome of a network call made through `apiRequest` (or the inline
fetch of `getProfile`), as seen by the operation: a parsed success body of
type `α`, a non-2xx response (with the parse of its error body: `none` if
`response.json()` threw, otherwise the optional `detail` and `message`
fields), or a rejection of `fetch` itself with a message. -/
inductive ApiOutcome (α : Type) where
  | success (data : α)
  | httpError (body : Option (Option String × Option String)) (status : Nat)
      (statusText : String)
  | netFail (msg : String)

/-- The message of the error thrown by `apiRequest` on a non-2xx response:
`errorData.detail || errorData.message || "Server error: <status>"`, or
`"Server error: <status> <statusText>"` when the error body fails to
parse. -/
def apiFailMessage (body : Option (Option String × Option String))
    (status : Nat) (statusText : String) : String :=
  match body with
  | some (detail, message) =>
      (jsOrS (jsOrS detail message) (some s!"Server error: {status}")).getD ""
  | none => s!"Server error: {status} {statusText}"

/-- The message of the error thrown by the failing branch of an
`ApiOutcome`, when there is one. -/
def ApiOutcome.failMessage {α : Type} : ApiOutcome α → Option String
  | .success _ => none
  | .httpError b s st => some (apiFailMessage b s st)
  | .netFail m => some m

/-- Body of a `/auth/login` or `/auth/register` success response: the
`email` field, possibly absent. -/
structure EmailResponse where
  email : Option String

/-- The fixed message stored on a connectivity-classified login failure. -/
def networkErrorMessage : String :=
  "Network error: Could not connect to server. Please check your connection."

/-- The connectivity heuristic of `login`: the failure text matches when it
contains `fetch`, `network`, or `Failed to fetch` as a substring. -/
def isNetworkMessage (msg : String) : Bool :=
  jsIncludes msg "fetch" || jsIncludes msg "network" ||
    jsIncludes msg "Failed to fetch"

/-- The catch block of `login`: classifies the failure text, stores the
(possibly rewritten) message in the error slot with kind `login`, resets
the loading flag, and re-throws the original message. -/
def loginCatch (w : World) (evs : List Ev) (msg : String) :
    World × List Ev × Except String String :=
  let e : AppAuthError :=
    if isNetworkMessage msg then ⟨"login", networkErrorMessage⟩
    else ⟨"login", msg⟩
  ({ w with mem := { w.mem with error := some e, isLoading := false } },
    evs ++ [Ev.setErr (some e), Ev.setLoading false], .error msg)

/-- `login(email, password)`: POST `/api/v1/auth/login`; on 2xx with a
truthy `email` field returns it; a 2xx without one throws
`Server did not return email in response` into the same catch block as any
network or server failure.  Performs no state transition on success. -/
def login (w : World) (out : ApiOutcome EmailResponse) :
    World × List Ev × Except String String :=
  let w0 : World := { w with mem := { w.mem with isLoading := true, error := none } }
  let evs0 := [Ev.setLoading true, Ev.setErr none, Ev.net "/api/v1/auth/login"]
  match out with
  | .success d =>
    if jsTruthy d.email then
      ({ w0 with mem := { w0.mem with isLoading := false } },
        evs0 ++ [Ev.setLoading false], .ok (d.email.getD ""))
    else
      loginCatch w0 evs0 "Server did not return email in response"
  | .httpError b s st => loginCatch w0 evs0 (apiFailMessage b s st)
  | .netFail m => loginCatch w0 evs0 m

/-- The catch block of `register`: stores the failure message unmodified in
the error slot with kind `register` and re-throws it. -/
def registerCatch (w : World) (evs : List Ev) (msg : String) :
    World × List Ev × Except String (Option String) :=
  let e : AppAuthError := ⟨"register", msg⟩
  ({ w with mem := { w.mem with error := some e, isLoading := false } },
    evs ++ [Ev.setErr (some e), Ev.setLoading false], .error msg)

/-- `register(email, password, name)`: POST `/api/v1/auth/register` with
the fixed role `customer`; on 2xx returns the `email` field of the body
as-is; on failure stores the raw message with kind `register` and
re-throws. -/
def register (w : World) (out : ApiOutcome EmailResponse) :
    World × List Ev × Except String (Option String) :=
  let w0 : World := { w with mem := { w.mem with isLoading := true, error := none } }
  let evs0 := [Ev.setLoading true, Ev.setErr none, Ev.net "/api/v1/auth/register"]
  match out with
  | .success d =>
      ({ w0 with mem := { w0.mem with isLoading := false } },
        evs0 ++ [Ev.setLoading false], .ok d.email)
  | .httpError b s st => registerCatch w0 evs0 (apiFailMessage b s st)
  | .netFail m => registerCatch w0 evs0 m

/-- Body of a `/auth/verify-otp` success response. -/
structure OtpResponse where
  access_token : String
  user : AuthUser

/-- `verifyOtp(email, otpCode)`: POST `/api/v1/auth/verify-otp`; on success
sets memory token and user, persists both to the store (a failure of either
write is thrown into the generic catch), then clears the pending pair via
`clearOtpFlow`.  On any caught failure the message is stored with kind
`otp` and re-thrown; the pending pair is left untouched.  `fTok`/`fUser`
are the fault parameters of the two persistence writes, `fP1`/`fP2` those
of the pending-pair removals inside `clearOtpFlow`. -/
def verifyOtp (w : World) (out : ApiOutcome OtpResponse)
    (fTok fUser fP1 fP2 : Option String) :
    World × List Ev × Except String Unit :=
  let w0 : World := { w with mem := { w.mem with isLoading := true, error := none } }
  let evs0 := [Ev.setLoading true, Ev.setErr none, Ev.net "/api/v1/auth/verify-otp"]
  match out with
  | .success d =>
    let w1 : World :=
      { w0 with mem := { w0.mem with accessToken := some d.access_token, user := some d.user } }
    let evs1 := evs0 ++ [Ev.setToken (some d.access_token), Ev.setUser (some d.user)]
    let st1 := if fTok.isSome then w1.store else { w1.store with accessToken := some d.access_token }
    let st2 := if fUser.isSome then st1 else { st1 with user := some (jsonStringifyUser d.user) }
    let w2 : World := { w1 with store := st2 }
    let evs2 := evs1 ++
      (if fTok.isSome then [] else [Ev.storeSet KEY_ACCESS_TOKEN d.access_token]) ++
      (if fUser.isSome then [] else [Ev.storeSet KEY_USER (jsonStringifyUser d.user)])
    match fTok <|> fUser with
    | some msg =>
      let e : AppAuthError := ⟨"otp", msg⟩
      ({ w2 with mem := { w2.mem with error := some e, isLoading := false } },
        evs2 ++ [Ev.setErr (some e), Ev.setLoading false], .error msg)
    | none =>
      let (w3, ev3) := clearOtpFlow w2 fP1 fP2
      ({ w3 with mem := { w3.mem with isLoading := false } },
        evs2 ++ ev3 ++ [Ev.setLoading false], .ok ())
  | .httpError b s st =>
    let msg := apiFailMessage b s st
    let e : AppAuthError := ⟨"otp", msg⟩
    ({ w0 with mem := { w0.mem with error := some e, isLoading := false } },
      evs0 ++ [Ev.setErr (some e), Ev.setLoading false], .error msg)
  | .netFail msg =>
    let e : AppAuthError := ⟨"otp", msg⟩
    ({ w0 with mem := { w0.mem with error := some e, isLoading := false } },
      evs0 ++ [Ev.setErr (some e), Ev.setLoading false], .error msg)

/-- `verifyEmail(email, otpCode)`: POST `/api/v1/auth/verify-email`; on
success only clears the pending pair via `clearOtpFlow` — it never touches
`user` or `accessToken`.  On failure the message is stored with kind
`verify` and re-thrown. -/
def verifyEmail (w : World) (out : ApiOutcome Unit) (fP1 fP2 : Option String) :
    World × List Ev × Except String Unit :=
  let w0 : World := { w with mem := { w.mem with isLoading := true, error := none } }
  let evs0 := [Ev.setLoading true, Ev.setErr none, Ev.net "/api/v1/auth/verify-email"]
  match out with
  | .success _ =>
    let (w1, ev1) := clearOtpFlow w0 fP1 fP2
    ({ w1 with mem := { w1.mem with isLoading := false } },
      evs0 ++ ev1 ++ [Ev.setLoading false], .ok ())
  | .httpError b s st =>
    let msg := apiFailMessage b s st
    let e : AppAuthError := ⟨"verify", msg⟩
    ({ w0 with mem := { w0.mem with error := some e, isLoading := false } },
      evs0 ++ [Ev.setErr (some e), Ev.setLoading false], .error msg)
  | .netFail msg =>
    let e : AppAuthError := ⟨"verify", msg⟩
    ({ w0 with mem := { w0.mem with error := some e, isLoading := false } },
      evs0 ++ [Ev.setErr (some e), Ev.setLoading false], .error msg)

/-- Body of a `/auth/me` success response: the full server payload,
including the read-only `created_at`. -/
structure ProfileData where
  user_id : String
  email : String
  name : Option String
  role : String
  created_at : Option String
deriving DecidableEq, Repr

/-- The catch block of `getProfile`. -/
def profileCatch (w : World) (evs : List Ev) (msg : String) :
    World × List Ev × Except String ProfileData :=
  let e : AppAuthError := ⟨"profile", msg⟩
  ({ w with mem := { w.mem with error := some e, isLoading := false } },
    evs ++ [Ev.setErr (some e), Ev.setLoading false], .error msg)

/-- `getProfile()`: throws `Not authenticated` before any state change or
network call when the access token is not truthy; otherwise GET
`/api/v1/auth/me` with the bearer header, replaces `user` with the
UserProfile projection of the payload, and returns the full payload. -/
def getProfile (w : World) (out : ApiOutcome ProfileData) :
    World × List Ev × Except String ProfileData :=
  if jsTruthy w.mem.accessToken then
    let w0 : World := { w with mem := { w.mem with isLoading := true, error := none } }
    let evs0 := [Ev.setLoading true, Ev.setErr none, Ev.net "/api/v1/auth/me"]
    match out with
    | .success d =>
      let u : AuthUser := ⟨d.user_id, d.email, d.name, d.role⟩
      ({ w0 with mem := { w0.mem with user := some u, isLoading := false } },
        evs0 ++ [Ev.setUser (some u), Ev.setLoading false], .ok d)
    | .httpError b s st => profileCatch w0 evs0 (apiFailMessage b s st)
    | .netFail m => profileCatch w0 evs0 m
  else
    (w, [], .error "Not authenticated")

/-- `signOut()`: clears `user`, `accessToken` and `error` in memory,
removes the token and user keys from the store (these removals are not
wrapped in a catch: a fault rejects the whole operation), then clears the
pending pair via `clearOtpFlow`. -/
def signOut (w : World) (fTok fUser fP1 fP2 : Option String) :
    World × List Ev × Except String Unit :=
  let m := { w.mem with user := none, accessToken := none, error := none }
  let st1 := if fTok.isSome then w.store else { w.store with accessToken := none }
  let st2 := if fUser.isSome then st1 else { st1 with user := none }
  let w1 : World := ⟨m, st2⟩
  let evs := [Ev.setUser none, Ev.setToken none, Ev.setErr none] ++
    (if fTok.isSome then [] else [Ev.storeRemove KEY_ACCESS_TOKEN]) ++
    (if fUser.isSome then [] else [Ev.storeRemove KEY_USER])
  match fTok <|> fUser with
  | some msg => (w1, evs, .error msg)
  | none =>
    let (w2, ev2) := clearOtpFlow w1 fP1 fP2
    (w2, evs ++ ev2, .ok ())

/-- `clearError()`. -/
def clearError (w : World) : World × List Ev :=
  ({ w with mem := { w.mem with error := none } }, [Ev.setErr none])

/-- An HTTP response as seen by `fetchWithAuth`: status plus opaque body. -/
structure HttpResponse where
  status : Nat
  body : String
deriving DecidableEq, Repr

/-- JavaScript object-key assignment on a header map: replaces the value of
an existing key, otherwise appends the pair. -/
def setHeader (hs : List (String × String)) (k v : String) :
    List (String × String) :=
  if (hs.map Prod.fst).contains k then
    hs.map (fun p => if p.1 = k then (k, v) else p)
  else hs ++ [(k, v)]

/-- `fetchWithAuth(url, options)`: clones the caller headers, assigns
`Authorization: Bearer <token>` when the access token is truthy, issues the
request, and on a response with status exactly 401 awaits `signOut()`
before returning the raw response.  Returns the headers actually sent and
the response (or the rejection propagated from `signOut`). -/
def fetchWithAuth (w : World) (headers : List (String × String))
    (resp : HttpResponse) (fTok fUser fP1 fP2 : Option String) :
    World × List (String × String) × Except String HttpResponse :=
  let sent := if jsTruthy w.mem.accessToken then
      setHeader headers "Authorization" ("Bearer " ++ w.mem.accessToken.getD "")
    else headers
  if resp.status = 401 then
    let (w2, _, r) := signOut w fTok fUser fP1 fP2
    match r with
    | .ok _ => (w2, sent, .ok resp)
    | .error m => (w2, sent, .error m)
  else
    (w, sent, .ok resp)

/-! Concrete inputs used by counterexamples and witnesses. -/

/-- A sample user profile. -/
def sampleUser : AuthUser := ⟨"u1", "a@x.com", none, "customer"⟩

/-- A store holding a pending email but no is-registration flag. -/
def storePendingNoFlag : Storage :=
  { pendingEmail := some "a@x.com", isRegistrationFlow := none,
    accessToken := none, user := none }

/-- An authenticated world with a pending pair and a stale error. -/
def authedWorld : World :=
  ⟨{ initialSession with
      user := some sampleUser, accessToken := some "tok1",
      pendingEmail := some "a@x.com", isRegistrationFlow := true,
      error := some ⟨"login", "stale"⟩ },
    ⟨some "a@x.com", some "true", some "tok1", some "blob"⟩⟩

/-- A mid-verification world: pending set, no user, no token. -/
def pendingWorld : World :=
  ⟨{ initialSession with pendingEmail := some "a@x.com" },
    ⟨some "a@x.com", some "false", none, none⟩⟩

/-- An anonymous world carrying a stale login error. -/
def erroredWorld : World :=
  ⟨{ initialSession with error := some ⟨"login", "boom"⟩ }, Storage.empty⟩

/-- An anonymous world with empty store. -/
def anonWorld : World := ⟨initialSession, Storage.empty⟩

/-- C1: for every successful `verifyOtp` (2xx with access token and user
profile, writes succeeding), the session afterwards is Authenticated:
`user` and `accessToken` hold the returned values, both are persisted,
the pending pair is absent from memory and from storage, and the in-memory
pending clear occurs strictly before the storage clear in the effect
trace. -/
theorem verifyOtp_success_authenticates (w : World) (tok : String) (u : AuthUser) :
    (verifyOtp w (.success ⟨tok, u⟩) none none none none).1.mem.user = some u ∧
    (verifyOtp w (.success ⟨tok, u⟩) none none none none).1.mem.accessToken = some tok ∧
    (verifyOtp w (.success ⟨tok, u⟩) none none none none).1.store.accessToken = some tok ∧
    (verifyOtp w (.success ⟨tok, u⟩) none none none none).1.store.user =
      some (jsonStringifyUser u) ∧
    (verifyOtp w (.success ⟨tok, u⟩) none none none none).1.mem.pendingEmail = none ∧
    (verifyOtp w (.success ⟨tok, u⟩) none none none none).1.mem.isRegistrationFlow = false ∧
    (verifyOtp w (.success ⟨tok, u⟩) none none none none).1.store.pendingEmail = none ∧
    (verifyOtp w (.success ⟨tok, u⟩) none none none none).1.store.isRegistrationFlow = none ∧
    (verifyOtp w (.success ⟨tok, u⟩) none none none none).2.2 = .ok () ∧
    evBefore (Ev.setPending none) (Ev.storeRemove KEY_PENDING_EMAIL)
      (verifyOtp w (.success ⟨tok, u⟩) none none none none).2.1 :=
  ⟨rfl, rfl, rfl, rfl, rfl, rfl, rfl, rfl, rfl, 7, 9, by norm_num, rfl, rfl⟩

/-- C2: for every prior session state and every `fetchWithAuth` call (with
reliable storage), the `Authorization: Bearer` header is assigned exactly
when an access token is held (its absence is not an error: the request is
still sent and the call still succeeds); on a response with status exactly
401 the session afterwards is Anonymous — no user, no token, no pending,
no error, empty store — while the caller receives the raw response; on any
other status the world is untouched. -/
theorem fetchWithAuth_contract (w : World) (hs : List (String × String))
    (resp : HttpResponse) :
    (fetchWithAuth w hs resp none none none none).2.1 =
      (if jsTruthy w.mem.accessToken then
        setHeader hs "Authorization" ("Bearer " ++ w.mem.accessToken.getD "")
      else hs) ∧
    (fetchWithAuth w hs resp none none none none).2.2 = .ok resp ∧
    (resp.status = 401 →
      (fetchWithAuth w hs resp none none none none).1.mem.user = none ∧
      (fetchWithAuth w hs resp none none none none).1.mem.accessToken = none ∧
      (fetchWithAuth w hs resp none none none none).1.mem.pendingEmail = none ∧
      (fetchWithAuth w hs resp none none none none).1.mem.isRegistrationFlow = false ∧
      (fetchWithAuth w hs resp none none none none).1.mem.error = none ∧
      (fetchWithAuth w hs resp none none none none).1.store = Storage.empty) ∧
    (resp.status ≠ 401 → (fetchWithAuth w hs resp none none none none).1 = w) := by
  by_cases h : resp.status = 401 <;>
    simp [fetchWithAuth, signOut, clearOtpFlow, saveOtpState, jsTruthy, h, Storage.empty]

/-- Witness for `fetchWithAuth_contract` at a 401 response on an
authenticated world. -/
theorem fetchWithAuth_contract_witness :
    (401 : Nat) = 401 ∧
    ((fetchWithAuth authedWorld [] ⟨401, "expired"⟩ none none none none).1.mem.user = none ∧
      (fetchWithAuth authedWorld [] ⟨401, "expired"⟩ none none none none).1.mem.accessToken = none ∧
      (fetchWithAuth authedWorld [] ⟨401, "expired"⟩ none none none none).1.mem.pendingEmail = none ∧
      (fetchWithAuth authedWorld [] ⟨401, "expired"⟩ none none none none).1.mem.isRegistrationFlow = false ∧
      (fetchWithAuth authedWorld [] ⟨401, "expired"⟩ none none none none).1.mem.error = none ∧
      (fetchWithAuth authedWorld [] ⟨401, "expired"⟩ none none none none).1.store = Storage.empty) :=
  ⟨rfl, (fetchWithAuth_contract authedWorld [] ⟨401, "expired"⟩).2.2.1 rfl⟩

/-- C3 counterexample: with a store holding a pending email but no
is-registration flag key, Restoration does restore `pendingEmail` — the
claimed both-or-neither coupling does not hold. -/
theorem restore_pending_without_flag_counterexample :
    (restoreAuthState storePendingNoFlag initialSession).pendingEmail = some "a@x.com" ∧
    (restoreAuthState storePendingNoFlag initialSession).pendingEmail ≠ none := by
  decide

/-- C3 amended: the pending pair is restored field by field, not
both-or-neither: `pendingEmail` is restored whenever the stored email key
holds a non-empty string, even when the is-registration flag key is absent;
in that case `isRegistrationFlow` merely stays at its initial `false`. -/
theorem restore_pending_email_independent (st : Storage)
    (hflag : st.isRegistrationFlow = none) (hem : jsTruthy st.pendingEmail = true) :
    (restoreAuthState st initialSession).pendingEmail = st.pendingEmail ∧
    (restoreAuthState st initialSession).isRegistrationFlow = false := by
  obtain ⟨pe, rf, tok, us⟩ := st
  simp only [restoreAuthState] at *
  subst hflag
  constructor
  all_goals simp only [hem, if_true]
  all_goals (repeat' split)
  all_goals simp [initialSession]

/-- Witness for `restore_pending_email_independent` on the concrete store
with an email key and no flag key. -/
theorem restore_pending_email_independent_witness :
    storePendingNoFlag.isRegistrationFlow = none ∧
    jsTruthy storePendingNoFlag.pendingEmail = true ∧
    ((restoreAuthState storePendingNoFlag initialSession).pendingEmail =
        storePendingNoFlag.pendingEmail ∧
      (restoreAuthState storePendingNoFlag initialSession).isRegistrationFlow = false) :=
  ⟨rfl, by decide, restore_pending_email_independent storePendingNoFlag rfl (by decide)⟩

/-- C4: `signOut` (with reliable storage) is idempotent: running it twice
from any world yields exactly the world of running it once, that world is
Anonymous — no user, no token, no pending, no error, in memory and in the
store — and the call completes without throwing, in particular as a no-op
on an already-anonymous session. -/
theorem signOut_idempotent (w : World) :
    (signOut (signOut w none none none none).1 none none none none).1 =
      (signOut w none none none none).1 ∧
    (signOut w none none none none).2.2 = .ok () ∧
    (signOut (signOut w none none none none).1 none none none none).2.2 = .ok () ∧
    (signOut w none none none none).1.mem.user = none ∧
    (signOut w none none none none).1.mem.accessToken = none ∧
    (signOut w none none none none).1.mem.error = none ∧
    (signOut w none none none none).1.mem.pendingEmail = none ∧
    (signOut w none none none none).1.mem.isRegistrationFlow = false ∧
    (signOut w none none none none).1.store = Storage.empty :=
  ⟨rfl, rfl, rfl, rfl, rfl, rfl, rfl, rfl, rfl⟩

/-- C5: when no access token is held, `getProfile` throws
`Not authenticated` before any state change or network call: the returned
world is the input world unchanged (every session field included) and the
effect trace is empty, so no request was issued. -/
theorem getProfile_without_token (w : World) (out : ApiOutcome ProfileData)
    (h : w.mem.accessToken = none) :
    getProfile w out = (w, [], .error "Not authenticated") := by
  simp [getProfile, h, jsTruthy]

/-- Witness for `getProfile_without_token` on the anonymous world. -/
theorem getProfile_without_token_witness :
    anonWorld.mem.accessToken = none ∧
    getProfile anonWorld (.netFail "down") =
      (anonWorld, [], .error "Not authenticated") :=
  ⟨rfl, getProfile_without_token anonWorld (.netFail "down") rfl⟩

/-- C6 counterexample: a storage failure in the token/user persistence
step of a successful `verifyOtp` is re-thrown to the caller and placed in
the session error slot (kind `otp`), contradicting the claim that storage
errors are always swallowed. -/
theorem verifyOtp_storage_failure_rethrown :
    (verifyOtp pendingWorld (.success ⟨"tok1", sampleUser⟩)
        (some "disk full") none none none).2.2 = .error "disk full" ∧
    (verifyOtp pendingWorld (.success ⟨"tok1", sampleUser⟩)
        (some "disk full") none none none).1.mem.error =
      some ⟨"otp", "disk full"⟩ :=
  ⟨rfl, rfl⟩

/-- C6 amended: storage-write failures inside `saveOtpState` (the pending
pair writes of `startOtpFlow`, `clearOtpFlow`, `signOut`, `verifyOtp` and
`verifyEmail`) are swallowed: the helper never throws and leaves the whole
in-memory session, error slot included, untouched.  The direct token/user
persistence step of `verifyOtp`, however, is not protected: its failure is
caught by the operation's generic handler, stored in the error slot with
kind `otp`, and re-thrown to the caller. -/
theorem storage_failure_policy :
    (∀ w email isReg f1 f2,
      (saveOtpState w email isReg f1 f2).1.mem = w.mem) ∧
    (∀ w d m fUser fP1 fP2,
      (verifyOtp w (.success d) (some m) fUser fP1 fP2).2.2 = .error m ∧
      (verifyOtp w (.success d) (some m) fUser fP1 fP2).1.mem.error =
        some ⟨"otp", m⟩) := by
  constructor
  · intro w email isReg f1 f2
    unfold saveOtpState
    split <;> rfl
  · intro w d m fUser fP1 fP2
    exact ⟨rfl, rfl⟩

/-- C7 counterexample: `startOtpFlow` on a session carrying a stale error
leaves the error slot untouched — it does not clear the prior error at
entry. -/
theorem startOtpFlow_keeps_stale_error :
    (startOtpFlow erroredWorld "b@x.com" true none none).1.mem.error =
      some ⟨"login", "boom"⟩ ∧
    (startOtpFlow erroredWorld "b@x.com" true none none).1.mem.error ≠ none := by
  decide

/-- C7 amended: `login`, `register`, `verifyOtp` and `verifyEmail` clear
the prior error at entry (the second observable effect, right after the
loading flag); `getProfile` does so exactly when an access token is held
(without one it throws before touching any state); `signOut` clears the
error as part of its teardown; `startOtpFlow` and `clearOtpFlow` never
touch the error slot. -/
theorem error_clearing_at_entry :
    (∀ w out, ((login w out).2.1).get? 1 = some (Ev.setErr none)) ∧
    (∀ w out, ((register w out).2.1).get? 1 = some (Ev.setErr none)) ∧
    (∀ w out fTok fUser fP1 fP2,
      ((verifyOtp w out fTok fUser fP1 fP2).2.1).get? 1 = some (Ev.setErr none)) ∧
    (∀ w out fP1 fP2,
      ((verifyEmail w out fP1 fP2).2.1).get? 1 = some (Ev.setErr none)) ∧
    (∀ w out, ((getProfile w out).2.1).get? 1 =
      if jsTruthy w.mem.accessToken then some (Ev.setErr none) else none) ∧
    (∀ w fTok fUser fP1 fP2,
      (signOut w fTok fUser fP1 fP2).1.mem.error = none) ∧
    (∀ w email isReg f1 f2,
      (startOtpFlow w email isReg f1 f2).1.mem.error = w.mem.error) ∧
    (∀ w f1 f2, (clearOtpFlow w f1 f2).1.mem.error = w.mem.error) := by
  refine ⟨?_, ?_, ?_, ?_, ?_, ?_, ?_, ?_⟩
  · intro w out
    cases out with
    | success d => by_cases h : jsTruthy d.email <;> simp [login, loginCatch, h]
    | httpError b s st => rfl
    | netFail m => rfl
  · intro w out
    cases out <;> rfl
  · intro w out fTok fUser fP1 fP2
    cases out with
    | success d => cases fTok <;> cases fUser <;> rfl
    | httpError b s st => rfl
    | netFail m => rfl
  · intro w out fP1 fP2
    cases out <;> rfl
  · intro w out
    by_cases h : jsTruthy w.mem.accessToken <;>
      cases out <;> simp [getProfile, profileCatch, h]
  · intro w fTok fUser fP1 fP2
    cases fTok <;> cases fUser <;> rfl
  · intro w email isReg f1 f2
    unfold startOtpFlow saveOtpState
    split <;> rfl
  · intro w f1 f2
    rfl

/-- C8 counterexample: a `register` failure whose text matches the
connectivity patterns (`Failed to fetch` contains `fetch`) is stored as a
plain `register`-kind error with the raw message — `register` applies no
network classification, unlike `login`. -/
theorem register_no_network_classification :
    isNetworkMessage "Failed to fetch" = true ∧
    (register anonWorld (.netFail "Failed to fetch")).1.mem.error =
      some ⟨"register", "Failed to fetch"⟩ ∧
    (register anonWorld (.netFail "Failed to fetch")).1.mem.error ≠
      some ⟨"register", networkErrorMessage⟩ := by
  refine ⟨by decide, rfl, ?_⟩
  decide

/-- C8 amended: `register` does not share the `login` error taxonomy:
every `register` failure — connectivity-looking or not — is stored in the
error slot as kind `register` with the unmodified failure message, and that
same message is re-thrown to the caller. -/
theorem register_failure_taxonomy (w : World) :
    (∀ m, (register w (.netFail m)).1.mem.error = some ⟨"register", m⟩ ∧
      (register w (.netFail m)).2.2 = .error m) ∧
    (∀ b s st,
      (register w (.httpError b s st)).1.mem.error =
        some ⟨"register", apiFailMessage b s st⟩ ∧
      (register w (.httpError b s st)).2.2 = .error (apiFailMessage b s st)) :=
  ⟨fun _ => ⟨rfl, rfl⟩, fun _ _ _ => ⟨rfl, rfl⟩⟩

/-- C9: a successful `verifyEmail` (with reliable storage) on a world
without user or token clears the pending pair in memory and in the store,
completes without throwing, and leaves `user` and `accessToken` absent in
memory and the token and user keys of the store untouched: registration
confirmation does not authenticate. -/
theorem verifyEmail_success_does_not_authenticate (w : World)
    (hu : w.mem.user = none) (ht : w.mem.accessToken = none) :
    (verifyEmail w (.success ()) none none).1.mem.pendingEmail = none ∧
    (verifyEmail w (.success ()) none none).1.mem.isRegistrationFlow = false ∧
    (verifyEmail w (.success ()) none none).1.store.pendingEmail = none ∧
    (verifyEmail w (.success ()) none none).1.store.isRegistrationFlow = none ∧
    (verifyEmail w (.success ()) none none).1.mem.user = none ∧
    (verifyEmail w (.success ()) none none).1.mem.accessToken = none ∧
    (verifyEmail w (.success ()) none none).1.store.accessToken = w.store.accessToken ∧
    (verifyEmail w (.success ()) none none).1.store.user = w.store.user ∧
    (verifyEmail w (.success ()) none none).2.2 = .ok () :=
  ⟨rfl, rfl, rfl, rfl, hu ▸ rfl, ht ▸ rfl, rfl, rfl, rfl⟩

/-- Witness for `verifyEmail_success_does_not_authenticate` on the
mid-registration pending world. -/
theorem verifyEmail_success_does_not_authenticate_witness :
    pendingWorld.mem.user = none ∧ pendingWorld.mem.accessToken = none ∧
    ((verifyEmail pendingWorld (.success ()) none none).1.mem.pendingEmail = none ∧
      (verifyEmail pendingWorld (.success ()) none none).1.mem.user = none ∧
      (verifyEmail pendingWorld (.success ()) none none).1.mem.accessToken = none) :=
  ⟨rfl, rfl,
    (verifyEmail_success_does_not_authenticate pendingWorld rfl rfl).1,
    (verifyEmail_success_does_not_authenticate pendingWorld rfl rfl).2.2.2.2.1,
    (verifyEmail_success_does_not_authenticate pendingWorld rfl rfl).2.2.2.2.2.1⟩

/-- C10: for every login failure whose text matches the connectivity
patterns, the session error slot receives the fixed rewritten connectivity
message while the error re-thrown to the caller carries the original text,
and (because the rewritten message itself matches no connectivity pattern)
the two messages always differ. -/
theorem login_network_failure_messages (w : World)
    (out : ApiOutcome EmailResponse) (m : String)
    (hthrow : (login w out).2.2 = .error m)
    (hnet : isNetworkMessage m = true) :
    (login w out).1.mem.error = some ⟨"login", networkErrorMessage⟩ ∧
    (login w out).2.2 = .error m ∧
    m ≠ networkErrorMessage := by
  cases out with
  | success d =>
    by_cases h : jsTruthy d.email
    · exfalso
      simp [login, h] at hthrow
    · have hm : "Server did not return email in response" = m := by
        simpa [login, loginCatch, h] using hthrow
      subst hm
      exact absurd hnet (by decide)
  | httpError b s st =>
    have hm : apiFailMessage b s st = m := by
      simpa [login, loginCatch] using hthrow
    subst hm
    refine ⟨?_, rfl, ?_⟩
    · simp [login, loginCatch, hnet]
    · intro he
      rw [he] at hnet
      exact absurd hnet (by decide)
  | netFail msg =>
    have hm : msg = m := by
      simpa [login, loginCatch] using hthrow
    subst hm
    refine ⟨?_, rfl, ?_⟩
    · simp [login, loginCatch, hnet]
    · intro he
      rw [he] at hnet
      exact absurd hnet (by decide)

/-- Witness for `login_network_failure_messages` at the connectivity
failure text `Failed to fetch`. -/
theorem login_network_failure_messages_witness :
    ((login erroredWorld (.netFail "Failed to fetch")).2.2 =
        .error "Failed to fetch" ∧
      isNetworkMessage "Failed to fetch" = true) ∧
    ((login erroredWorld (.netFail "Failed to fetch")).1.mem.error =
        some ⟨"login", networkErrorMessage⟩ ∧
      (login erroredWorld (.netFail "Failed to fetch")).2.2 =
        .error "Failed to fetch" ∧
      "Failed to fetch" ≠ networkErrorMessage) :=
  ⟨⟨rfl, by decide⟩,
    login_network_failure_messages erroredWorld (.netFail "Failed to fetch")
      "Failed to fetch" rfl (by decide)⟩
